import Mathlib

/-!
Verification development for the playtime-panorama repository.

The server-side data layer (`server/steam.ts`, `server/database.ts`,
`server/leaderboard.ts`) is embedded shallowly: the pure cores of the
functions are translated directly, with external effects (HTTP fetch,
SQLite rows, the system clock) passed in as explicit arguments.  JavaScript
numbers are modelled as `ℚ` (or `ℤ` where the source only ever stores
integers).  The client-side grid layout engine lives in
`templates/profile.html`, which is not part of the server sources; it is
modelled from the specification, as marked on each of those definitions.
-/

/-! ## Data model from `server/steam.ts` -/

/-- A single game record in the Steam `GetOwnedGames` response
(`SteamGame` in `server/steam.ts`).  `playtime_forever` is in minutes. -/
structure SteamGame where
  appid : ℤ
  name : Option String
  playtime_forever : ℚ
  rtime_last_played : Option ℤ
deriving Repr, DecidableEq

/-- The `response` object inside `SteamOwnedGamesResponse`; `games` is an
optional field in the upstream JSON. -/
structure OwnedGamesInner where
  game_count : ℤ
  games : Option (List SteamGame)
deriving Repr, DecidableEq

/-- `CachedPlaytimePayload` from `server/database.ts`: the payload stored in
and returned from the playtime cache. -/
structure CachedPlaytimePayload where
  game_count : ℤ
  games : List SteamGame
deriving Repr, DecidableEq

/-- Pure core of `fetchPlaytimeFromSteam` (`server/steam.ts`): given the
decoded `data.response` (absent field modelled as `none`), substitute the
`{ game_count: 0, games: [] }` default, keep only games with
`playtime_forever > 10`, and return a payload whose `game_count` is the
length of the filtered list.  The HTTP request, logging and the cache
write-back are side effects that do not alter the returned value. -/
def fetchPlaytimePayload (resp : Option OwnedGamesInner) : CachedPlaytimePayload :=
  let response := resp.getD { game_count := 0, games := some [] }
  let games := (response.games.map
    (fun gs => gs.filter (fun game => decide (10 < game.playtime_forever)))).getD []
  { game_count := games.length, games := games }

/-- Pure core of `getPlaytimePayload` (`server/steam.ts`): on a cache hit
(and no forced refresh) return the cached payload, otherwise return the
result of `fetchPlaytimeFromSteam`. -/
def getPlaytimePayloadPure (forceRefresh : Bool) (cached : Option CachedPlaytimePayload)
    (resp : Option OwnedGamesInner) : CachedPlaytimePayload :=
  if !forceRefresh then
    match cached with
    | some cachedPayload => cachedPayload
    | none => fetchPlaytimePayload resp
  else fetchPlaytimePayload resp

/-! ## Steam identifier resolution from `server/steam.ts` -/

/-- The regular expression `steamIdPattern = /^\d{17}$/` from
`server/steam.ts`: exactly 17 decimal digits. -/
def steamIdPatternTest (s : String) : Bool :=
  s.length = 17 && s.toList.all (fun c => c.isDigit)

/-- The first decision `getVanityResolution` takes, before any asynchronous
work: throw on an empty identifier, return a 17-digit identifier directly,
or fall through to the vanity cache and then the Steam API. -/
inductive VanityResolutionStep where
  /-- Throws `SteamIdentifierError "Steam identifier is required."`. -/
  | requiredError : VanityResolutionStep
  /-- Returns the trimmed identifier unchanged, consulting neither the
  vanity cache nor the Steam API. -/
  | direct (steamId : String) : VanityResolutionStep
  /-- Continues: consults the vanity cache and, on a miss, the Steam API. -/
  | consult (identifier : String) : VanityResolutionStep
deriving Repr, DecidableEq

/-- Head of `getVanityResolution` (`server/steam.ts`): trim the raw
identifier, fail if it is empty, and return it unchanged when it matches
`steamIdPattern`; only otherwise are the cache and the API consulted. -/
def getVanityResolutionStep (rawIdentifier : String) : VanityResolutionStep :=
  let identifier := rawIdentifier.trim
  if identifier = "" then .requiredError
  else if steamIdPatternTest identifier then .direct identifier
  else .consult identifier

/-! ## Playtime cache from `server/database.ts` -/

/-- `PLAYTIME_TTL_SECONDS = 60 * 60 * 24` from `server/database.ts`. -/
def PLAYTIME_TTL_SECONDS : ℤ := 60 * 60 * 24

/-- A row of the `playtime_cache` table.  The stored TEXT payload is
modelled after decoding: `none` stands for text that `JSON.parse` rejects. -/
structure PlaytimeCacheRow where
  steam_id : String
  payload : Option CachedPlaytimePayload
  fetched_at : ℤ
deriving Repr, DecidableEq

/-- The `PlaytimeRowStatus` union type from `server/database.ts`. -/
inductive PlaytimeRowStatus where
  | ok : PlaytimeRowStatus
  | expired : PlaytimeRowStatus
  | empty : PlaytimeRowStatus
  | invalid : PlaytimeRowStatus
deriving Repr, DecidableEq

/-- `parseCachedPlaytimeRow` (`server/database.ts`): reject rows older than
the TTL (unless `allowExpired`), rows whose payload fails to parse, and
rows with a zero (falsy) `game_count`. -/
def parseCachedPlaytimeRow (now : ℤ) (row : PlaytimeCacheRow) (allowExpired : Bool) :
    PlaytimeRowStatus × Option CachedPlaytimePayload :=
  if !allowExpired && decide (PLAYTIME_TTL_SECONDS < now - row.fetched_at) then
    (.expired, none)
  else
    match row.payload with
    | none => (.invalid, none)
    | some payload =>
      if payload.game_count = 0 then (.empty, none)
      else (.ok, some payload)

/-- Pure core of `getCachedPlaytimePayload` (`server/database.ts`): `lookup`
is the result of the `SELECT ... WHERE steam_id = ...` query.  A missing
row, an expired row, an unparseable payload, or an empty payload all yield
`none`; the deletion of empty/invalid rows is a side effect that does not
change the returned value. -/
def getCachedPlaytimePayloadPure (now : ℤ) (lookup : Option PlaytimeCacheRow) :
    Option CachedPlaytimePayload :=
  match lookup with
  | none => none
  | some row =>
    if PLAYTIME_TTL_SECONDS < now - row.fetched_at then none
    else
      match parseCachedPlaytimeRow now row false with
      | (.ok, some payload) => some payload
      | _ => none

/-! ## Leaderboard from `server/leaderboard.ts` -/

/-- `CachedPlaytimeRecord` from `server/database.ts`: a validated row of the
playtime cache as returned by `listCachedPlaytimeRecords`. -/
structure CachedPlaytimeRecord where
  steamId : String
  payload : CachedPlaytimePayload
  fetchedAt : ℤ
deriving Repr, DecidableEq

/-- The optional `topGame` sub-object of a leaderboard entry. -/
structure LeaderboardTopGame where
  appid : ℤ
  name : String
  minutes : ℚ
deriving Repr, DecidableEq

/-- `LeaderboardEntry` from `server/leaderboard.ts`. -/
structure LeaderboardEntry where
  steamId : String
  profileHref : String
  gameCount : ℚ
  totalMinutes : ℚ
  averageMinutes : ℚ
  lastUpdated : ℤ
  topGame : Option LeaderboardTopGame
deriving Repr, DecidableEq

/-- `MAX_ROWS = 25` from `server/leaderboard.ts`. -/
def MAX_ROWS : ℕ := 25

/-- `summarizeRecord` (`server/leaderboard.ts`): total minutes are summed
over the games (the `Number.isFinite` guard is vacuous over `ℚ`), the
average divides by `game_count` when positive, and the top game is the
running maximum of `playtime_forever`.  `encodeURIComponent` is the
identity on the digit-only steam ids used as cache keys. -/
def summarizeRecord (record : CachedPlaytimeRecord) : LeaderboardEntry :=
  let totalMinutes :=
    record.payload.games.foldl (fun total game => total + game.playtime_forever) 0
  let averageMinutes :=
    if 0 < (record.payload.game_count : ℚ) then
      totalMinutes / (record.payload.game_count : ℚ)
    else 0
  let topGame := record.payload.games.foldl
    (fun (currentMax : Option SteamGame) game =>
      match currentMax with
      | none => some game
      | some m => if m.playtime_forever < game.playtime_forever then some game else some m)
    none
  { steamId := record.steamId
    profileHref := "/" ++ record.steamId
    gameCount := (record.payload.game_count : ℚ)
    totalMinutes := totalMinutes
    averageMinutes := averageMinutes
    lastUpdated := record.fetchedAt
    topGame :=
      match topGame with
      | some g =>
        if (g.name.getD "").trim ≠ "" then
          some { appid := g.appid, name := (g.name.getD "").trim, minutes := g.playtime_forever }
        else none
      | none => none }

/-- `String.prototype.localeCompare` as used on the digit-only steam ids:
negative when `a` sorts before `b`, positive when after, zero on equality
(code-point order coincides with any locale on ASCII digits). -/
def localeCompare (a b : String) : ℚ :=
  if a < b then -1 else if b < a then 1 else 0

/-- Shared shape of the three comparators in `server/leaderboard.ts`:
primary key descending, then secondary key descending, then
`steamId.localeCompare` ascending. -/
def lexCompare (primary secondary : LeaderboardEntry → ℚ) (a b : LeaderboardEntry) : ℚ :=
  if primary a ≠ primary b then primary b - primary a
  else if secondary a ≠ secondary b then secondary b - secondary a
  else localeCompare a.steamId b.steamId

/-- `compareByGameCount` (`server/leaderboard.ts`). -/
def compareByGameCount : LeaderboardEntry → LeaderboardEntry → ℚ :=
  lexCompare (fun e => e.gameCount) (fun e => e.totalMinutes)

/-- `compareByTotalMinutes` (`server/leaderboard.ts`). -/
def compareByTotalMinutes : LeaderboardEntry → LeaderboardEntry → ℚ :=
  lexCompare (fun e => e.totalMinutes) (fun e => e.gameCount)

/-- `compareByAverageMinutes` (`server/leaderboard.ts`). -/
def compareByAverageMinutes : LeaderboardEntry → LeaderboardEntry → ℚ :=
  lexCompare (fun e => e.averageMinutes) (fun e => e.totalMinutes)

/-- `limitEntries` (`server/leaderboard.ts`): keep entries with a positive
game count and positive total minutes. -/
def limitEntries (entries : List LeaderboardEntry) : List LeaderboardEntry :=
  entries.filter (fun entry => decide (0 < entry.gameCount) && decide (0 < entry.totalMinutes))

/-- `Array.prototype.sort` with a numeric comparator, modelled as a stable
merge sort ordered by `cmp a b ≤ 0`. -/
def sortByComparator (cmp : LeaderboardEntry → LeaderboardEntry → ℚ)
    (entries : List LeaderboardEntry) : List LeaderboardEntry :=
  entries.mergeSort (fun a b => decide (cmp a b ≤ 0))

/-- `LeaderboardMetrics` from `server/leaderboard.ts`. -/
structure LeaderboardMetrics where
  byGameCount : List LeaderboardEntry
  byTotalPlaytime : List LeaderboardEntry
  byAveragePlaytime : List LeaderboardEntry
deriving Repr, DecidableEq

/-- `LeaderboardSnapshot` from `server/leaderboard.ts`. -/
structure LeaderboardSnapshot where
  generatedAt : ℤ
  metrics : LeaderboardMetrics
deriving Repr, DecidableEq

/-- Pure core of `getLeaderboardSnapshot` (`server/leaderboard.ts`):
`cachedRecords` is the result of `listCachedPlaytimeRecords` and `now` the
current unix time. -/
def getLeaderboardSnapshotPure (now : ℤ) (cachedRecords : List CachedPlaytimeRecord) :
    LeaderboardSnapshot :=
  let summaries := cachedRecords.map summarizeRecord
  let filteredSummaries := limitEntries summaries
  { metrics :=
      { byGameCount := (sortByComparator compareByGameCount filteredSummaries).take MAX_ROWS
        byTotalPlaytime :=
          (sortByComparator compareByTotalMinutes filteredSummaries).take MAX_ROWS
        byAveragePlaytime :=
          (sortByComparator compareByAverageMinutes filteredSummaries).take MAX_ROWS }
    generatedAt := now }

/-- The ordering the leaderboard lists are claimed to satisfy: descending
primary metric, ties broken by descending secondary metric, then by
ascending steam id. -/
def DescendingLex (primary secondary : LeaderboardEntry → ℚ) (a b : LeaderboardEntry) : Prop :=
  primary b < primary a ∨
    (primary a = primary b ∧
      (secondary b < secondary a ∨
        (secondary a = secondary b ∧ a.steamId ≤ b.steamId)))

/-! ## Grid layout engine

Modelled from the spec: `computeGridLayout` lives in
`templates/profile.html`, which is not among the server sources, so the
engine below follows sections 4 and 6 of the specification (weight
transform, span assignment with top-K boost, height-aware column-count
search, row sizing, failure semantics).  Real-valued quantities use `ℝ`.
-/

/-- An input item of the layout engine: an opaque identifier and the
non-negative hours played driving its weight. -/
structure LayoutItem where
  identifier : String
  hoursPlayed : ℝ

/-- The viewport the layout must fit. -/
structure Viewport where
  width : ℝ
  height : ℝ

/-- Modelled from the spec (section 6): the engine configuration; all
fields have caller-overridable defaults. -/
structure LayoutConfig where
  desiredCardWidth : ℝ
  maxSpan : ℕ
  topKBoostCount : ℕ
  boostIncrement : ℕ
  overflowTolerance : ℝ
  slackTolerance : ℝ
  maxIterations : ℕ

/-- A laid-out item: its identifier and its grid span footprint in cells. -/
structure ScoredItem where
  identifier : String
  spanWidth : ℕ
  spanHeight : ℕ
deriving Repr, DecidableEq

/-- The errors of section 7 that abort a whole invocation. -/
inductive LayoutError where
  | invalidViewport : LayoutError
deriving Repr, DecidableEq

/-- The layout plan of section 3: column count, row cell size in pixels,
and the scored items in presentation order. -/
structure LayoutPlan where
  columnCount : ℕ
  rowCellSize : ℝ
  items : List ScoredItem

/-- Modelled from the spec (section 4.1): the weight transform
`areaWeight = (hours + 0.1) ^ 0.62`. -/
noncomputable def weightTransform (hours : ℝ) : ℝ :=
  (hours + 0.1) ^ (0.62 : ℝ)

/-- The area weight of the item at index `i`. -/
noncomputable def areaWeightAt (items : List LayoutItem) (i : Fin items.length) : ℝ :=
  weightTransform (items.get i).hoursPlayed

/-- Modelled from the spec (section 4.2): `maxWeight = max(areaWeights)`. -/
noncomputable def maxAreaWeight (items : List LayoutItem) : ℝ :=
  (items.map (fun it => weightTransform it.hoursPlayed)).foldr max 0

/-- Clamp an integer span side to `[1, maxSpan]`. -/
def clampSpan (maxSpan : ℕ) (side : ℤ) : ℕ :=
  (min (maxSpan : ℤ) (max 1 side)).toNat

/-- Modelled from the spec (section 4.2): the unboosted square span side,
`round (sqrt (relativeArea * maxSpanArea))` clamped to `[1, maxSpan]`. -/
noncomputable def baseSpanAt (cfg : LayoutConfig) (items : List LayoutItem)
    (i : Fin items.length) : ℕ :=
  clampSpan cfg.maxSpan
    (round (Real.sqrt ((areaWeightAt items i / maxAreaWeight items) *
      ((cfg.maxSpan : ℝ) ^ 2))))

open Classical in
/-- Modelled from the spec (section 4.2): the position of item `i` in the
stable sort by weight descending then original index ascending — the
number of items that sort strictly before it. -/
noncomputable def weightRank (items : List LayoutItem) (i : Fin items.length) : ℕ :=
  (Finset.univ.filter (fun j : Fin items.length =>
    areaWeightAt items i < areaWeightAt items j ∨
      (areaWeightAt items j = areaWeightAt items i ∧ (j : ℕ) < (i : ℕ)))).card

open Classical in
/-- Modelled from the spec (section 4.2): the final span side; the top-K
items by weight are boosted by a fixed increment, capped at `maxSpan`. -/
noncomputable def spanAt (cfg : LayoutConfig) (items : List LayoutItem)
    (i : Fin items.length) : ℕ :=
  if weightRank items i < cfg.topKBoostCount then
    min cfg.maxSpan (baseSpanAt cfg items i + cfg.boostIncrement)
  else baseSpanAt cfg items i

/-- The scored items of the plan, in presentation order; spans are square. -/
noncomputable def scoredItems (cfg : LayoutConfig) (items : List LayoutItem) :
    List ScoredItem :=
  (List.finRange items.length).map (fun i =>
    { identifier := (items.get i).identifier
      spanWidth := spanAt cfg items i
      spanHeight := spanAt cfg items i })

/-- Modelled from the spec (glossary): the fixed gutter spacing between
cells, in pixels; the exact value is an unspecified tuning constant. -/
def gridGutter : ℝ := 8

/-- Modelled from the spec (section 4.4):
`rowCellSize = (viewportWidth - totalGutterWidth) / columnCount`. -/
noncomputable def rowCellSizeFor (vp : Viewport) (columns : ℕ) : ℝ :=
  (vp.width - gridGutter * ((columns : ℝ) - 1)) / (columns : ℝ)

/-- Modelled from the spec (section 4.3): greedy left-to-right,
top-to-bottom shelf packing of the square spans into `columns` columns,
wrapping when the current row lacks horizontal room; returns the number of
grid rows used.  State: (finished rows, cells used in the open row, height
of the open row). -/
def packRows (columns : ℕ) (spans : List ℕ) : ℕ :=
  let final := spans.foldl
    (fun (st : ℕ × ℕ × ℕ) span =>
      let used := max 1 (min span columns)
      if st.2.1 + used ≤ columns then (st.1, st.2.1 + used, max st.2.2 used)
      else (st.1 + st.2.2, used, used))
    (0, 0, 0)
  final.1 + final.2.2

/-- Modelled from the spec (section 4.3): estimated total grid height,
`rowsUsed * rowCellSize`. -/
noncomputable def estimateHeight (vp : Viewport) (spans : List ℕ) (columns : ℕ) : ℝ :=
  (packRows columns spans : ℝ) * rowCellSizeFor vp columns

/-- Modelled from the spec (section 4.3): the hard cap bounding the column
count from above; the exact value is an unspecified tuning constant. -/
def hardColumnCap : ℕ := 60

/-- Modelled from the spec (section 4.3): the initial state of the search,
`round (viewportWidth / desiredCardWidth)` clamped to at least 1 and to at
most the item count or the hard cap. -/
noncomputable def initialColumnCount (items : List LayoutItem) (vp : Viewport)
    (cfg : LayoutConfig) : ℕ :=
  min (max 1 (min items.length hardColumnCap))
    (max 1 (round (vp.width / cfg.desiredCardWidth)).toNat)

open Classical in
/-- Modelled from the spec (section 4.3): the estimate/adjust loop.  Each
call with remaining budget performs one estimate step and either stops
within tolerance or adjusts the column count by one and recurses; the
result is the final column count paired with the number of steps taken. -/
noncomputable def columnSearch (vp : Viewport) (cfg : LayoutConfig) (spans : List ℕ) :
    ℕ → ℕ → ℕ × ℕ
  | 0, columns => (columns, 0)
  | fuel + 1, columns =>
    let estimated := estimateHeight vp spans columns
    if vp.height * (1 + cfg.overflowTolerance) < estimated then
      let next := columnSearch vp cfg spans fuel (columns + 1)
      (next.1, next.2 + 1)
    else if estimated < vp.height * (1 - cfg.slackTolerance) then
      let next := columnSearch vp cfg spans fuel (max 1 (columns - 1))
      (next.1, next.2 + 1)
    else (columns, 1)

/-- The span list consumed by the height estimator, in presentation order. -/
noncomputable def spanList (cfg : LayoutConfig) (items : List LayoutItem) : List ℕ :=
  (List.finRange items.length).map (fun i => spanAt cfg items i)

/-- The column count the search settles on (the configured minimum of 1 for
an empty item list, per section 4.4 failure semantics). -/
noncomputable def searchedColumnCount (items : List LayoutItem) (vp : Viewport)
    (cfg : LayoutConfig) : ℕ :=
  if items.isEmpty then 1
  else
    (columnSearch vp cfg (spanList cfg items) cfg.maxIterations
      (initialColumnCount items vp cfg)).1

/-- The number of estimate/adjust steps the search performs. -/
noncomputable def searchedSteps (items : List LayoutItem) (vp : Viewport)
    (cfg : LayoutConfig) : ℕ :=
  if items.isEmpty then 0
  else
    (columnSearch vp cfg (spanList cfg items) cfg.maxIterations
      (initialColumnCount items vp cfg)).2

open Classical in
/-- Modelled from the spec (sections 4.3, 4.4, 7): the engine.  A
non-positive viewport fails with `InvalidViewportError` and no partial
plan; an empty item list yields the minimal plan; otherwise spans are
assigned and the searched column count fixes the row cell size. -/
noncomputable def computeGridLayout (items : List LayoutItem) (vp : Viewport)
    (cfg : LayoutConfig) : Except LayoutError LayoutPlan :=
  if vp.width ≤ 0 ∨ vp.height ≤ 0 then .error .invalidViewport
  else if items.isEmpty then
    .ok { columnCount := 1, rowCellSize := rowCellSizeFor vp 1, items := [] }
  else
    let columns := searchedColumnCount items vp cfg
    .ok { columnCount := columns
          rowCellSize := rowCellSizeFor vp columns
          items := scoredItems cfg items }

/-! ## Concrete sample inputs used by the witnesses -/

/-- A sample decoded Steam response with one game above and one below the
10-minute threshold. -/
def sampleOwnedGames : Option OwnedGamesInner :=
  some { game_count := 2
         games := some
           [ { appid := 440, name := some "Team Fortress 2", playtime_forever := 6000,
               rtime_last_played := none }
           , { appid := 570, name := some "Dota 2", playtime_forever := 4,
               rtime_last_played := none } ] }

/-- A sample cache row fetched at unix time 0 whose payload parses. -/
def sampleCacheRow : PlaytimeCacheRow :=
  { steam_id := "76561198000000001"
    payload := some { game_count := 1
                      games := [{ appid := 440, name := some "Team Fortress 2",
                                  playtime_forever := 6000, rtime_last_played := none }] }
    fetched_at := 0 }

/-- Two sample cached records for the leaderboard. -/
def sampleRecords : List CachedPlaytimeRecord :=
  [ { steamId := "76561198000000001"
      payload := { game_count := 2
                   games := [ { appid := 440, name := some "Team Fortress 2",
                                playtime_forever := 6000, rtime_last_played := none }
                            , { appid := 730, name := some "Counter-Strike 2",
                                playtime_forever := 1200, rtime_last_played := none } ] }
      fetchedAt := 1700000000 }
  , { steamId := "76561198000000002"
      payload := { game_count := 1
                   games := [ { appid := 570, name := some "Dota 2",
                                playtime_forever := 9000, rtime_last_played := none } ] }
      fetchedAt := 1700000100 } ]

/-- Sample layout items: hours 100, 1 and 0.2 (the worked example of
section 8). -/
noncomputable def sampleItems : List LayoutItem :=
  [ { identifier := "A", hoursPlayed := 100 }
  , { identifier := "B", hoursPlayed := 1 }
  , { identifier := "C", hoursPlayed := 0.2 } ]

/-- The sample viewport of section 8. -/
def sampleViewport : Viewport := { width := 1200, height := 800 }

/-- A degenerate viewport with zero width (section 8 invalid-viewport
example). -/
def zeroWidthViewport : Viewport := { width := 0, height := 800 }

/-- A sample configuration with the default-like values named in the
spec. -/
noncomputable def sampleConfig : LayoutConfig :=
  { desiredCardWidth := 220
    maxSpan := 12
    topKBoostCount := 3
    boostIncrement := 2
    overflowTolerance := 0.2
    slackTolerance := 0.25
    maxIterations := 8 }

/-! ## C2: upstream filtering of sub-threshold playtime -/

/-- C2: every game in the payload returned by `fetchPlaytimeFromSteam` has
`playtime_forever` strictly greater than 10 minutes, the returned
`game_count` equals the length of the filtered games list, and
`getPlaytimePayload` returns exactly this payload on a cache miss. -/
theorem fetchPlaytimePayload_filtered (resp : Option OwnedGamesInner) :
    (∀ g ∈ (fetchPlaytimePayload resp).games, 10 < g.playtime_forever) ∧
    (fetchPlaytimePayload resp).game_count =
      ((fetchPlaytimePayload resp).games.length : ℤ) ∧
    (∀ forceRefresh,
      getPlaytimePayloadPure forceRefresh none resp = fetchPlaytimePayload resp) := by
  refine ⟨?_, rfl, ?_⟩
  · intro g hg
    rcases resp with _ | r
    · simp [fetchPlaytimePayload] at hg
    · rcases hr : r.games with _ | gs
      · simp [fetchPlaytimePayload, hr] at hg
      · simp only [fetchPlaytimePayload, hr, Option.getD_some, Option.map_some'] at hg
        have := List.of_mem_filter hg
        simpa using this
  · intro forceRefresh
    cases forceRefresh <;> rfl

/-- Witness for C2 at the sample Steam response. -/
theorem fetchPlaytimePayload_filtered_witness :
    (∀ g ∈ (fetchPlaytimePayload sampleOwnedGames).games, 10 < g.playtime_forever) ∧
    (fetchPlaytimePayload sampleOwnedGames).game_count =
      ((fetchPlaytimePayload sampleOwnedGames).games.length : ℤ) ∧
    (∀ forceRefresh,
      getPlaytimePayloadPure forceRefresh none sampleOwnedGames =
        fetchPlaytimePayload sampleOwnedGames) :=
  fetchPlaytimePayload_filtered sampleOwnedGames

/-! ## C8: 17-digit identifiers bypass the vanity cache and API -/

/-- C8: when the trimmed identifier is exactly 17 decimal digits,
`getVanityResolution` returns it unchanged without consulting the vanity
cache or the Steam API. -/
theorem getVanityResolutionStep_direct (rawIdentifier : String)
    (h : steamIdPatternTest rawIdentifier.trim = true) :
    getVanityResolutionStep rawIdentifier = .direct rawIdentifier.trim := by
  have hlen : rawIdentifier.trim.length = 17 := by
    have hand := (Bool.and_eq_true _ _).mp h
    exact of_decide_eq_true hand.1
  have hne : ¬ rawIdentifier.trim = "" := by
    intro he
    rw [he] at hlen
    exact absurd hlen (by decide)
  simp [getVanityResolutionStep, hne, h]

unseal Substring.takeWhileAux Substring.takeRightWhileAux in
/-- Witness for C8 at a concrete 17-digit identifier. -/
theorem getVanityResolutionStep_direct_witness :
    steamIdPatternTest ("76561198000000001".trim) = true ∧
    getVanityResolutionStep "76561198000000001" =
      .direct ("76561198000000001".trim) :=
  ⟨by decide, getVanityResolutionStep_direct "76561198000000001" (by decide)⟩

/-! ## C9: playtime cache entries expire after 24 hours -/

/-- C9: `PLAYTIME_TTL_SECONDS` is 86400 seconds, and a cache row fetched
more than that many seconds before the current time is reported as a cache
miss by `getCachedPlaytimePayload`. -/
theorem getCachedPlaytimePayload_expired (now : ℤ) (row : PlaytimeCacheRow)
    (h : PLAYTIME_TTL_SECONDS < now - row.fetched_at) :
    PLAYTIME_TTL_SECONDS = 86400 ∧
      getCachedPlaytimePayloadPure now (some row) = none := by
  refine ⟨by norm_num [PLAYTIME_TTL_SECONDS], ?_⟩
  simp [getCachedPlaytimePayloadPure, h]

/-- Witness for C9: a row fetched at time 0 queried at time 100000. -/
theorem getCachedPlaytimePayload_expired_witness :
    PLAYTIME_TTL_SECONDS < 100000 - sampleCacheRow.fetched_at ∧
    (PLAYTIME_TTL_SECONDS = 86400 ∧
      getCachedPlaytimePayloadPure 100000 (some sampleCacheRow) = none) :=
  ⟨by decide, getCachedPlaytimePayload_expired 100000 sampleCacheRow (by decide)⟩

/-! ## C10: leaderboard snapshot invariants -/

/-- The numeric comparators of `server/leaderboard.ts` order entries by the
descending-lexicographic relation. -/
theorem lexCompare_nonpos_iff (primary secondary : LeaderboardEntry → ℚ)
    (a b : LeaderboardEntry) :
    lexCompare primary secondary a b ≤ 0 ↔ DescendingLex primary secondary a b := by
  unfold lexCompare DescendingLex localeCompare
  split_ifs with hp hs hlt hgt
  · constructor
    · intro h
      exact Or.inl ((sub_nonpos.mp h).lt_of_ne (fun he => hp he.symm))
    · rintro (h | ⟨he, _⟩)
      · exact sub_nonpos.mpr h.le
      · exact absurd he hp
  · have hpe : primary a = primary b := not_ne_iff.mp hp
    constructor
    · intro h
      exact Or.inr ⟨hpe, Or.inl ((sub_nonpos.mp h).lt_of_ne (fun he => hs he.symm))⟩
    · rintro (h | ⟨_, h2 | ⟨he2, _⟩⟩)
      · rw [hpe] at h
        exact absurd h (lt_irrefl _)
      · exact sub_nonpos.mpr h2.le
      · exact absurd he2 hs
  · have hpe : primary a = primary b := not_ne_iff.mp hp
    have hse : secondary a = secondary b := not_ne_iff.mp hs
    constructor
    · intro _
      exact Or.inr ⟨hpe, Or.inr ⟨hse, hlt.le⟩⟩
    · intro _
      norm_num
  · have hpe : primary a = primary b := not_ne_iff.mp hp
    have hse : secondary a = secondary b := not_ne_iff.mp hs
    constructor
    · intro h
      norm_num at h
    · rintro (h | ⟨_, h2 | ⟨_, hle⟩⟩)
      · rw [hpe] at h
        exact absurd h (lt_irrefl _)
      · rw [hse] at h2
        exact absurd h2 (lt_irrefl _)
      · exact absurd hgt (not_lt.mpr hle)
  · have hpe : primary a = primary b := not_ne_iff.mp hp
    have hse : secondary a = secondary b := not_ne_iff.mp hs
    constructor
    · intro _
      exact Or.inr ⟨hpe, Or.inr ⟨hse, not_lt.mp hgt⟩⟩
    · intro _
      norm_num

/-- The descending-lexicographic relation is transitive. -/
theorem descendingLex_trans (primary secondary : LeaderboardEntry → ℚ)
    (a b c : LeaderboardEntry) (h1 : DescendingLex primary secondary a b)
    (h2 : DescendingLex primary secondary b c) : DescendingLex primary secondary a c := by
  rcases h1 with h1 | ⟨e1, h1'⟩
  · rcases h2 with h2 | ⟨e2, _⟩
    · exact Or.inl (h2.trans h1)
    · exact Or.inl (e2 ▸ h1)
  · rcases h2 with h2 | ⟨e2, h2'⟩
    · refine Or.inl ?_
      rw [e1]
      exact h2
    · refine Or.inr ⟨e1.trans e2, ?_⟩
      rcases h1' with h1s | ⟨f1, g1⟩
      · rcases h2' with h2s | ⟨f2, _⟩
        · exact Or.inl (h2s.trans h1s)
        · exact Or.inl (f2 ▸ h1s)
      · rcases h2' with h2s | ⟨f2, g2⟩
        · refine Or.inl ?_
          rw [f1]
          exact h2s
        · exact Or.inr ⟨f1.trans f2, g1.trans g2⟩

/-- The descending-lexicographic relation is total. -/
theorem descendingLex_total (primary secondary : LeaderboardEntry → ℚ)
    (a b : LeaderboardEntry) :
    DescendingLex primary secondary a b ∨ DescendingLex primary secondary b a := by
  rcases lt_trichotomy (primary a) (primary b) with h | h | h
  · exact Or.inr (Or.inl h)
  · rcases lt_trichotomy (secondary a) (secondary b) with h2 | h2 | h2
    · exact Or.inr (Or.inr ⟨h.symm, Or.inl h2⟩)
    · rcases le_total a.steamId b.steamId with h3 | h3
      · exact Or.inl (Or.inr ⟨h, Or.inr ⟨h2, h3⟩⟩)
      · exact Or.inr (Or.inr ⟨h.symm, Or.inr ⟨h2.symm, h3⟩⟩)
    · exact Or.inl (Or.inr ⟨h, Or.inl h2⟩)
  · exact Or.inl (Or.inl h)

/-- Sorting with one of the three comparators yields a list that is
pairwise ordered by the corresponding descending-lexicographic relation. -/
theorem sortByComparator_pairwise (primary secondary : LeaderboardEntry → ℚ)
    (l : List LeaderboardEntry) :
    (sortByComparator (lexCompare primary secondary) l).Pairwise
      (DescendingLex primary secondary) := by
  have trans : ∀ a b c : LeaderboardEntry,
      decide (lexCompare primary secondary a b ≤ 0) = true →
      decide (lexCompare primary secondary b c ≤ 0) = true →
      decide (lexCompare primary secondary a c ≤ 0) = true := by
    intro a b c hab hbc
    refine decide_eq_true ((lexCompare_nonpos_iff primary secondary a c).mpr ?_)
    exact descendingLex_trans primary secondary a b c
      ((lexCompare_nonpos_iff primary secondary a b).mp (of_decide_eq_true hab))
      ((lexCompare_nonpos_iff primary secondary b c).mp (of_decide_eq_true hbc))
  have total : ∀ a b : LeaderboardEntry,
      (decide (lexCompare primary secondary a b ≤ 0) ||
        decide (lexCompare primary secondary b a ≤ 0)) = true := by
    intro a b
    rcases descendingLex_total primary secondary a b with h | h
    · simp [decide_eq_true ((lexCompare_nonpos_iff primary secondary a b).mpr h)]
    · simp [decide_eq_true ((lexCompare_nonpos_iff primary secondary b a).mpr h)]
  have hsorted := List.sorted_mergeSort trans total l
  refine List.Pairwise.imp ?_ hsorted
  intro a b hab
  exact (lexCompare_nonpos_iff primary secondary a b).mp (of_decide_eq_true hab)

/-- Entries surviving `limitEntries` have positive game count and positive
total minutes. -/
theorem mem_limitEntries {e : LeaderboardEntry} {l : List LeaderboardEntry}
    (he : e ∈ limitEntries l) : 0 < e.gameCount ∧ 0 < e.totalMinutes := by
  unfold limitEntries at he
  have := List.of_mem_filter he
  simpa using this

/-- Shared invariant of each leaderboard list: filtered for positivity,
sorted by the comparator, and truncated to `MAX_ROWS`. -/
theorem leaderboardList_invariants (primary secondary : LeaderboardEntry → ℚ)
    (l : List LeaderboardEntry) :
    ((sortByComparator (lexCompare primary secondary) (limitEntries l)).take
        MAX_ROWS).length ≤ MAX_ROWS ∧
    (∀ e ∈ (sortByComparator (lexCompare primary secondary) (limitEntries l)).take
        MAX_ROWS, 0 < e.gameCount ∧ 0 < e.totalMinutes) ∧
    ((sortByComparator (lexCompare primary secondary) (limitEntries l)).take
        MAX_ROWS).Pairwise (DescendingLex primary secondary) := by
  refine ⟨List.length_take_le _ _, ?_, ?_⟩
  · intro e he
    have he1 : e ∈ sortByComparator (lexCompare primary secondary) (limitEntries l) :=
      List.mem_of_mem_take he
    have he2 : e ∈ limitEntries l := by
      unfold sortByComparator at he1
      exact List.mem_mergeSort.mp he1
    exact mem_limitEntries he2
  · exact List.Pairwise.sublist (List.take_sublist _ _)
      (sortByComparator_pairwise primary secondary (limitEntries l))

/-- C10: every leaderboard snapshot has, in each of its three metric lists,
at most `MAX_ROWS` (25) entries, only entries with positive game count and
positive total minutes, and descending order of the primary metric with
ties broken by the secondary metric and then by ascending steam id. -/
theorem getLeaderboardSnapshot_invariants (now : ℤ)
    (records : List CachedPlaytimeRecord) :
    ((getLeaderboardSnapshotPure now records).metrics.byGameCount.length ≤ MAX_ROWS ∧
      (∀ e ∈ (getLeaderboardSnapshotPure now records).metrics.byGameCount,
        0 < e.gameCount ∧ 0 < e.totalMinutes) ∧
      (getLeaderboardSnapshotPure now records).metrics.byGameCount.Pairwise
        (DescendingLex (fun e => e.gameCount) (fun e => e.totalMinutes))) ∧
    ((getLeaderboardSnapshotPure now records).metrics.byTotalPlaytime.length ≤ MAX_ROWS ∧
      (∀ e ∈ (getLeaderboardSnapshotPure now records).metrics.byTotalPlaytime,
        0 < e.gameCount ∧ 0 < e.totalMinutes) ∧
      (getLeaderboardSnapshotPure now records).metrics.byTotalPlaytime.Pairwise
        (DescendingLex (fun e => e.totalMinutes) (fun e => e.gameCount))) ∧
    ((getLeaderboardSnapshotPure now records).metrics.byAveragePlaytime.length ≤ MAX_ROWS ∧
      (∀ e ∈ (getLeaderboardSnapshotPure now records).metrics.byAveragePlaytime,
        0 < e.gameCount ∧ 0 < e.totalMinutes) ∧
      (getLeaderboardSnapshotPure now records).metrics.byAveragePlaytime.Pairwise
        (DescendingLex (fun e => e.averageMinutes) (fun e => e.totalMinutes))) := by
  refine ⟨?_, ?_, ?_⟩
  · exact leaderboardList_invariants (fun e => e.gameCount) (fun e => e.totalMinutes)
      (records.map summarizeRecord)
  · exact leaderboardList_invariants (fun e => e.totalMinutes) (fun e => e.gameCount)
      (records.map summarizeRecord)
  · exact leaderboardList_invariants (fun e => e.averageMinutes) (fun e => e.totalMinutes)
      (records.map summarizeRecord)

/-- Witness for C10 at the sample cached records. -/
theorem getLeaderboardSnapshot_invariants_witness :
    ((getLeaderboardSnapshotPure 0 sampleRecords).metrics.byGameCount.length ≤ MAX_ROWS ∧
      (∀ e ∈ (getLeaderboardSnapshotPure 0 sampleRecords).metrics.byGameCount,
        0 < e.gameCount ∧ 0 < e.totalMinutes) ∧
      (getLeaderboardSnapshotPure 0 sampleRecords).metrics.byGameCount.Pairwise
        (DescendingLex (fun e => e.gameCount) (fun e => e.totalMinutes))) ∧
    ((getLeaderboardSnapshotPure 0 sampleRecords).metrics.byTotalPlaytime.length ≤ MAX_ROWS ∧
      (∀ e ∈ (getLeaderboardSnapshotPure 0 sampleRecords).metrics.byTotalPlaytime,
        0 < e.gameCount ∧ 0 < e.totalMinutes) ∧
      (getLeaderboardSnapshotPure 0 sampleRecords).metrics.byTotalPlaytime.Pairwise
        (DescendingLex (fun e => e.totalMinutes) (fun e => e.gameCount))) ∧
    ((getLeaderboardSnapshotPure 0 sampleRecords).metrics.byAveragePlaytime.length ≤ MAX_ROWS ∧
      (∀ e ∈ (getLeaderboardSnapshotPure 0 sampleRecords).metrics.byAveragePlaytime,
        0 < e.gameCount ∧ 0 < e.totalMinutes) ∧
      (getLeaderboardSnapshotPure 0 sampleRecords).metrics.byAveragePlaytime.Pairwise
        (DescendingLex (fun e => e.averageMinutes) (fun e => e.totalMinutes))) :=
  getLeaderboardSnapshot_invariants 0 sampleRecords

/-! ## C1: the column-count search is bounded and yields positive columns -/

/-- The search loop takes at most `fuel` estimate/adjust steps and, started
from a positive column count, ends on a positive column count. -/
theorem columnSearch_spec (vp : Viewport) (cfg : LayoutConfig) (spans : List ℕ) :
    ∀ fuel columns : ℕ, 1 ≤ columns →
      (columnSearch vp cfg spans fuel columns).2 ≤ fuel ∧
      1 ≤ (columnSearch vp cfg spans fuel columns).1 := by
  intro fuel
  induction fuel with
  | zero =>
    intro columns hc
    exact ⟨le_refl 0, hc⟩
  | succ n ih =>
    intro columns hc
    simp only [columnSearch]
    split_ifs with h1 h2
    · have hnext := ih (columns + 1) (by omega)
      exact ⟨by omega, hnext.2⟩
    · have hnext := ih (max 1 (columns - 1)) (le_max_left _ _)
      exact ⟨by omega, hnext.2⟩
    · exact ⟨by omega, hc⟩

/-- The initial column count is at least 1. -/
theorem one_le_initialColumnCount (items : List LayoutItem) (vp : Viewport)
    (cfg : LayoutConfig) : 1 ≤ initialColumnCount items vp cfg :=
  le_min (le_max_left _ _) (le_max_left _ _)

/-- C1: for every item list and viewport the column-count search performs
at most `maxIterations` estimate/adjust steps and settles on a positive
column count. -/
theorem columnCountSearch_bounded (items : List LayoutItem) (vp : Viewport)
    (cfg : LayoutConfig) :
    searchedSteps items vp cfg ≤ cfg.maxIterations ∧
    1 ≤ searchedColumnCount items vp cfg := by
  unfold searchedSteps searchedColumnCount
  split_ifs with h
  · exact ⟨Nat.zero_le _, le_refl 1⟩
  · exact ⟨(columnSearch_spec vp cfg (spanList cfg items) cfg.maxIterations
        (initialColumnCount items vp cfg) (one_le_initialColumnCount items vp cfg)).1,
      (columnSearch_spec vp cfg (spanList cfg items) cfg.maxIterations
        (initialColumnCount items vp cfg) (one_le_initialColumnCount items vp cfg)).2⟩

/-! ## C4: the layout engine is deterministic -/

/-- C4: two invocations of `computeGridLayout` with identical item lists,
identical viewports and identical configurations produce identical layout
plans. -/
theorem computeGridLayout_deterministic (items₁ items₂ : List LayoutItem)
    (vp₁ vp₂ : Viewport) (cfg₁ cfg₂ : LayoutConfig)
    (hitems : items₁ = items₂) (hvp : vp₁ = vp₂) (hcfg : cfg₁ = cfg₂) :
    computeGridLayout items₁ vp₁ cfg₁ = computeGridLayout items₂ vp₂ cfg₂ := by
  rw [hitems, hvp, hcfg]

/-- Witness for C4 at the sample inputs. -/
theorem computeGridLayout_deterministic_witness :
    sampleItems = sampleItems ∧ sampleViewport = sampleViewport ∧
    sampleConfig = sampleConfig ∧
    computeGridLayout sampleItems sampleViewport sampleConfig =
      computeGridLayout sampleItems sampleViewport sampleConfig :=
  ⟨rfl, rfl, rfl,
    computeGridLayout_deterministic sampleItems sampleItems sampleViewport
      sampleViewport sampleConfig sampleConfig rfl rfl rfl⟩

/-! ## C5: the weight transform is monotone and positive at zero -/

/-- C5: `weightTransform` is monotonically non-decreasing on non-negative
hours, and strictly positive at zero hours. -/
theorem weightTransform_monotone :
    (∀ h₁ h₂ : ℝ, 0 ≤ h₁ → h₁ ≤ h₂ → weightTransform h₁ ≤ weightTransform h₂) ∧
    0 < weightTransform 0 := by
  constructor
  · intro h₁ h₂ h0 hle
    unfold weightTransform
    exact Real.rpow_le_rpow (by linarith) (by linarith) (by norm_num)
  · unfold weightTransform
    exact Real.rpow_pos_of_pos (by norm_num) _

/-- Witness for C5 at hours 0 and 1. -/
theorem weightTransform_monotone_witness :
    (0:ℝ) ≤ 0 ∧ (0:ℝ) ≤ 1 ∧ weightTransform 0 ≤ weightTransform 1 ∧
    0 < weightTransform 0 :=
  ⟨le_refl 0, zero_le_one,
    weightTransform_monotone.1 0 1 (le_refl 0) zero_le_one,
    weightTransform_monotone.2⟩

/-! ## C7: non-positive viewports fail with no partial plan -/

/-- C7: a viewport with non-positive width or height makes
`computeGridLayout` fail with `InvalidViewportError`, producing no plan. -/
theorem computeGridLayout_invalidViewport (items : List LayoutItem) (vp : Viewport)
    (cfg : LayoutConfig) (h : vp.width ≤ 0 ∨ vp.height ≤ 0) :
    computeGridLayout items vp cfg = .error .invalidViewport := by
  unfold computeGridLayout
  rw [if_pos h]

/-- Witness for C7 at a zero-width viewport. -/
theorem computeGridLayout_invalidViewport_witness :
    (zeroWidthViewport.width ≤ 0 ∨ zeroWidthViewport.height ≤ 0) ∧
    computeGridLayout sampleItems zeroWidthViewport sampleConfig =
      .error .invalidViewport :=
  ⟨Or.inl (le_refl 0),
    computeGridLayout_invalidViewport sampleItems zeroWidthViewport sampleConfig
      (Or.inl (le_refl 0))⟩

/-! ## C3: all spans lie in `[1, maxSpan]` and are square -/

/-- The clamp keeps the span side at least 1 when `maxSpan` is. -/
theorem one_le_clampSpan (maxSpan : ℕ) (h : 1 ≤ maxSpan) (side : ℤ) :
    1 ≤ clampSpan maxSpan side := by
  unfold clampSpan
  have h1 : (1:ℤ) ≤ min (maxSpan : ℤ) (max 1 side) :=
    le_min (by exact_mod_cast h) (le_max_left _ _)
  omega

/-- The clamp keeps the span side at most `maxSpan`. -/
theorem clampSpan_le (maxSpan : ℕ) (side : ℤ) : clampSpan maxSpan side ≤ maxSpan := by
  unfold clampSpan
  have h1 : min (maxSpan : ℤ) (max 1 side) ≤ (maxSpan : ℤ) := min_le_left _ _
  omega

/-- The clamp is monotone in the unclamped side. -/
theorem clampSpan_mono (maxSpan : ℕ) {s₁ s₂ : ℤ} (h : s₁ ≤ s₂) :
    clampSpan maxSpan s₁ ≤ clampSpan maxSpan s₂ := by
  unfold clampSpan
  have h1 := min_le_min (le_refl (maxSpan : ℤ)) (max_le_max (le_refl (1:ℤ)) h)
  omega

/-- The base span side is never above `maxSpan`. -/
theorem baseSpanAt_le (cfg : LayoutConfig) (items : List LayoutItem)
    (i : Fin items.length) : baseSpanAt cfg items i ≤ cfg.maxSpan :=
  clampSpan_le _ _

/-- The final span side (with the top-K boost) stays in `[1, maxSpan]`. -/
theorem spanAt_bounds (cfg : LayoutConfig) (items : List LayoutItem)
    (h : 1 ≤ cfg.maxSpan) (i : Fin items.length) :
    1 ≤ spanAt cfg items i ∧ spanAt cfg items i ≤ cfg.maxSpan := by
  unfold spanAt
  split_ifs
  · exact ⟨le_min h ((one_le_clampSpan _ h _).trans (Nat.le_add_right _ _)),
      min_le_left _ _⟩
  · exact ⟨one_le_clampSpan _ h _, baseSpanAt_le cfg items i⟩

/-- C3: every scored item receives a square span whose side lies in
`[1, maxSpan]`, including after the top-K boost. -/
theorem scoredItems_span_bounds (cfg : LayoutConfig) (items : List LayoutItem)
    (h : 1 ≤ cfg.maxSpan) :
    ∀ sit ∈ scoredItems cfg items,
      1 ≤ sit.spanWidth ∧ sit.spanWidth ≤ cfg.maxSpan ∧
        sit.spanWidth = sit.spanHeight := by
  intro sit hsit
  unfold scoredItems at hsit
  rcases List.mem_map.mp hsit with ⟨i, _, rfl⟩
  exact ⟨(spanAt_bounds cfg items h i).1, (spanAt_bounds cfg items h i).2, rfl⟩

/-- Witness for C3 at the sample items and configuration. -/
theorem scoredItems_span_bounds_witness :
    1 ≤ sampleConfig.maxSpan ∧
    ∀ sit ∈ scoredItems sampleConfig sampleItems,
      1 ≤ sit.spanWidth ∧ sit.spanWidth ≤ sampleConfig.maxSpan ∧
        sit.spanWidth = sit.spanHeight :=
  ⟨by decide, scoredItems_span_bounds sampleConfig sampleItems (by decide)⟩

/-! ## C6: span assignment preserves the weight ordering -/

/-- The weight transform is strictly increasing on non-negative hours. -/
theorem weightTransform_strictMono {h₁ h₂ : ℝ} (h0 : 0 ≤ h₁) (hlt : h₁ < h₂) :
    weightTransform h₁ < weightTransform h₂ := by
  unfold weightTransform
  exact Real.rpow_lt_rpow (by linarith) (by linarith) (by norm_num)

/-- The weight transform is positive on non-negative hours. -/
theorem weightTransform_pos {h : ℝ} (h0 : 0 ≤ h) : 0 < weightTransform h := by
  unfold weightTransform
  exact Real.rpow_pos_of_pos (by linarith) _

/-- Every member of a list of reals is bounded by its foldr max over 0. -/
theorem le_foldr_max {x : ℝ} {l : List ℝ} (hx : x ∈ l) : x ≤ l.foldr max 0 := by
  induction l with
  | nil => cases hx
  | cons a t ih =>
    rcases List.mem_cons.mp hx with rfl | ht
    · exact le_max_left _ _
    · exact (ih ht).trans (le_max_right _ _)

/-- Each area weight is bounded by the maximum area weight. -/
theorem areaWeightAt_le_max (items : List LayoutItem) (i : Fin items.length) :
    areaWeightAt items i ≤ maxAreaWeight items := by
  unfold areaWeightAt maxAreaWeight
  exact le_foldr_max (List.mem_map_of_mem _ (List.get_mem items i.1 i.2))

/-- The unboosted span side is monotone in the area weight. -/
theorem baseSpanAt_mono (cfg : LayoutConfig) (items : List LayoutItem)
    {i j : Fin items.length}
    (hle : areaWeightAt items j ≤ areaWeightAt items i)
    (hpos : 0 < areaWeightAt items i) :
    baseSpanAt cfg items j ≤ baseSpanAt cfg items i := by
  have hmax : 0 < maxAreaWeight items :=
    lt_of_lt_of_le hpos (areaWeightAt_le_max items i)
  unfold baseSpanAt
  apply clampSpan_mono
  rw [round_eq, round_eq]
  apply Int.floor_le_floor
  have hs : Real.sqrt (areaWeightAt items j / maxAreaWeight items * ((cfg.maxSpan : ℝ) ^ 2)) ≤
      Real.sqrt (areaWeightAt items i / maxAreaWeight items * ((cfg.maxSpan : ℝ) ^ 2)) := by
    apply Real.sqrt_le_sqrt
    have hdiv : areaWeightAt items j / maxAreaWeight items ≤
        areaWeightAt items i / maxAreaWeight items := by gcongr
    exact mul_le_mul_of_nonneg_right hdiv (by positivity)
  linarith

/-- A strictly heavier item never ranks after a lighter one in the stable
top-K order. -/
theorem weightRank_le (items : List LayoutItem) {i j : Fin items.length}
    (hw : areaWeightAt items j < areaWeightAt items i) :
    weightRank items i ≤ weightRank items j := by
  unfold weightRank
  apply Finset.card_le_card
  intro k hk
  simp only [Finset.mem_filter, Finset.mem_univ, true_and] at hk ⊢
  rcases hk with hk | ⟨hkeq, _⟩
  · exact Or.inl (hw.trans hk)
  · exact Or.inl (hkeq.symm ▸ hw)

/-- C6: an item with strictly higher raw weight (hours) never receives a
smaller span side, both before and after the top-K boost. -/
theorem spanAssignment_preserves_order (cfg : LayoutConfig) (items : List LayoutItem)
    (i j : Fin items.length)
    (hnn : ∀ it ∈ items, 0 ≤ it.hoursPlayed)
    (hgt : (items.get j).hoursPlayed < (items.get i).hoursPlayed) :
    baseSpanAt cfg items j ≤ baseSpanAt cfg items i ∧
    spanAt cfg items j ≤ spanAt cfg items i := by
  have hj0 : 0 ≤ (items.get j).hoursPlayed := hnn _ (List.get_mem items j.1 j.2)
  have hi0 : 0 ≤ (items.get i).hoursPlayed := hnn _ (List.get_mem items i.1 i.2)
  have hw : areaWeightAt items j < areaWeightAt items i :=
    weightTransform_strictMono hj0 hgt
  have hpos : 0 < areaWeightAt items i := weightTransform_pos hi0
  have hbase := baseSpanAt_mono cfg items hw.le hpos
  refine ⟨hbase, ?_⟩
  have hrank := weightRank_le items hw
  unfold spanAt
  by_cases hi : weightRank items i < cfg.topKBoostCount
  · rw [if_pos hi]
    by_cases hj : weightRank items j < cfg.topKBoostCount
    · rw [if_pos hj]
      exact min_le_min (le_refl _) (Nat.add_le_add_right hbase _)
    · rw [if_neg hj]
      exact le_min (baseSpanAt_le cfg items j) (hbase.trans (Nat.le_add_right _ _))
  · have hj : ¬ weightRank items j < cfg.topKBoostCount := fun hjlt =>
      hi (lt_of_le_of_lt hrank hjlt)
    rw [if_neg hi, if_neg hj]
    exact hbase

/-- Witness for C6: item A (100 hours) against item B (1 hour) in the
sample list. -/
theorem spanAssignment_preserves_order_witness :
    (∀ it ∈ sampleItems, 0 ≤ it.hoursPlayed) ∧
    (sampleItems.get ⟨1, by norm_num [sampleItems]⟩).hoursPlayed <
      (sampleItems.get ⟨0, by norm_num [sampleItems]⟩).hoursPlayed ∧
    (baseSpanAt sampleConfig sampleItems ⟨1, by norm_num [sampleItems]⟩ ≤
        baseSpanAt sampleConfig sampleItems ⟨0, by norm_num [sampleItems]⟩ ∧
      spanAt sampleConfig sampleItems ⟨1, by norm_num [sampleItems]⟩ ≤
        spanAt sampleConfig sampleItems ⟨0, by norm_num [sampleItems]⟩) :=
  ⟨by
    intro it hit
    simp only [sampleItems, List.mem_cons, List.not_mem_nil, or_false] at hit
    rcases hit with rfl | rfl | rfl <;> norm_num,
  by
    simp only [sampleItems, List.get]
    norm_num,
  spanAssignment_preserves_order sampleConfig sampleItems
    ⟨0, by norm_num [sampleItems]⟩ ⟨1, by norm_num [sampleItems]⟩
    (by
      intro it hit
      simp only [sampleItems, List.mem_cons, List.not_mem_nil, or_false] at hit
      rcases hit with rfl | rfl | rfl <;> norm_num)
    (by
      simp only [sampleItems, List.get]
      norm_num)⟩
